import Mathlib

/-!
Verification of the beamer-presenter-tool repository.

Shallow embedding of the JavaScript sources:

* `src/js/config.js`    — `getRegions`, the `AppState` record shape;
* `src/js/sync.js`      — `sendToAudience`, `sendStateToAudience`,
  `sendPdfDataToAudience`, `sendNavigateToAudience`, `handleAudienceMessage`;
* `src/unnamed/part_000` (presenter main module) — `navigateTo`,
  the laser-pointer event handlers and `sendPointerThrottled`;
* `src/unnamed/part_001` (PDF renderer + timer modules) — `loadPdfFromBuffer`,
  `loadPdfFromUrl`, `renderFullPage` with its page cache,
  `getElapsedTime`, `startTimer`, `pauseTimer`, `resetTimer`.

Modelling conventions: JS numbers that hold geometric quantities (widths,
split ratios, render scales, pointer coordinates) become exact rationals;
page numbers become `Int` (JS integers); clock values from `Date.now()`
become `Nat` milliseconds.  A JS `Map` becomes an insertion-ordered
association list (JS `Map` iterates keys in insertion order;
`map.keys().next().value` is the oldest inserted key, `map.set` of a fresh
key appends at the end).  Asynchronous external collaborators (the PDF.js
engine, `fetch`) are modelled by explicit outcome parameters: `none` means
the corresponding promise rejected, `some v` means it resolved with `v`.
Cross-window `postMessage` traffic is modelled by returning the list of
messages emitted by an operation, in emission order.
-/

/-- Rectangle in raster-pixel units as built by `getRegions` in
src/js/config.js: fields x, y, w, h.  JS floating point dimensions are
modelled as exact rationals. -/
structure Rect where
  x : ℚ
  y : ℚ
  w : ℚ
  h : ℚ
  deriving Repr, DecidableEq

/-- Result record of `getRegions`: an audience region and a notes region. -/
structure Regions where
  audience : Rect
  notes : Rect
  deriving Repr, DecidableEq

/-- Embedding of `getRegions(width, height, location, split)`
(src/js/config.js lines 88-118).  The source initialises both regions to
the zero rectangle and then overwrites them in a `switch (location)` with
cases right / left / top / bottom and no default case, so an unrecognised
location falls through and the zero-initialised record is returned. -/
def getRegions (width height : ℚ) (location : String) (split : ℚ) : Regions :=
  let init : Regions :=
    { audience := { x := 0, y := 0, w := 0, h := 0 }
      notes := { x := 0, y := 0, w := 0, h := 0 } }
  match location with
  | "right" =>
      { audience := { x := 0, y := 0, w := width * split, h := height }
        notes := { x := width * split, y := 0, w := width * (1 - split), h := height } }
  | "left" =>
      { notes := { x := 0, y := 0, w := width * split, h := height }
        audience := { x := width * split, y := 0, w := width * (1 - split), h := height } }
  | "top" =>
      { notes := { x := 0, y := 0, w := width, h := height * split }
        audience := { x := 0, y := height * split, w := width, h := height * (1 - split) } }
  | "bottom" =>
      { audience := { x := 0, y := 0, w := width, h := height * split }
        notes := { x := 0, y := height * split, w := width, h := height * (1 - split) } }
  | _ => init

/-- Point membership in a rectangle, half-open on the right and bottom
edges (the pixel-region reading of an {x, y, w, h} rectangle). -/
def Rect.containsPt (r : Rect) (px py : ℚ) : Prop :=
  r.x ≤ px ∧ px < r.x + r.w ∧ r.y ≤ py ∧ py < r.y + r.h

/-- The partition property of the two regions produced by `getRegions` for
a given width, height, location and split: the regions are disjoint, they
cover the full width-by-height rectangle, widths sum for left/right splits
(full height on both sides), heights sum for top/bottom splits (full width
on both sides), and the exact rectangles for location right. -/
def RegionsPartition (width height : ℚ) (location : String) (split : ℚ) : Prop :=
  let r := getRegions width height location split
  (∀ px py, ¬ (r.audience.containsPt px py ∧ r.notes.containsPt px py)) ∧
  (∀ px py, 0 ≤ px → px < width → 0 ≤ py → py < height →
      (r.audience.containsPt px py ∨ r.notes.containsPt px py)) ∧
  ((location = "right" ∨ location = "left") →
      r.audience.w + r.notes.w = width ∧ r.audience.h = height ∧ r.notes.h = height) ∧
  ((location = "top" ∨ location = "bottom") →
      r.audience.h + r.notes.h = height ∧ r.audience.w = width ∧ r.notes.w = width) ∧
  (location = "right" →
      r.audience = { x := 0, y := 0, w := width * split, h := height } ∧
      r.notes = { x := width * split, y := 0, w := width * (1 - split), h := height })

/-- Reduction of `getRegions` at location right. -/
theorem getRegions_right_eq (width height split : ℚ) :
    getRegions width height "right" split =
      { audience := { x := 0, y := 0, w := width * split, h := height }
        notes := { x := width * split, y := 0, w := width * (1 - split), h := height } } :=
  rfl

/-- Reduction of `getRegions` at location left. -/
theorem getRegions_left_eq (width height split : ℚ) :
    getRegions width height "left" split =
      { notes := { x := 0, y := 0, w := width * split, h := height }
        audience := { x := width * split, y := 0, w := width * (1 - split), h := height } } :=
  rfl

/-- Reduction of `getRegions` at location top. -/
theorem getRegions_top_eq (width height split : ℚ) :
    getRegions width height "top" split =
      { notes := { x := 0, y := 0, w := width, h := height * split }
        audience := { x := 0, y := height * split, w := width, h := height * (1 - split) } } :=
  rfl

/-- Reduction of `getRegions` at location bottom. -/
theorem getRegions_bottom_eq (width height split : ℚ) :
    getRegions width height "bottom" split =
      { audience := { x := 0, y := 0, w := width, h := height * split }
        notes := { x := 0, y := height * split, w := width, h := height * (1 - split) } } :=
  rfl

/-- C1: for every width > 0, height > 0, split in (0,1) and location among
right, left, top, bottom, `getRegions` returns two disjoint regions whose
union covers the full width-by-height rectangle; widths sum to the full
width for right/left (both regions full height), heights sum to the full
height for top/bottom (both regions full width); and for right the
audience region is the left `split` fraction and the notes region the
remaining right fraction. -/
theorem getRegions_partition (width height split : ℚ) (location : String)
    (hw : 0 < width) (hh : 0 < height) (hs0 : 0 < split) (hs1 : split < 1)
    (hloc : location = "right" ∨ location = "left" ∨ location = "top" ∨
      location = "bottom") :
    RegionsPartition width height location split := by
  have hwsum : width * split + width * (1 - split) = width := by ring
  have hhsum : height * split + height * (1 - split) = height := by ring
  rcases hloc with h | h | h | h
  · subst h
    unfold RegionsPartition
    rw [getRegions_right_eq]
    simp only [Rect.containsPt]
    refine ⟨?_, ?_, ?_, ?_, ?_⟩
    · rintro px py ⟨⟨_, ha2, _, _⟩, ⟨hn1, _, _, _⟩⟩
      linarith
    · intro px py hx0 hxw hy0 hyh
      rcases le_or_lt (width * split) px with hcase | hcase
      · exact Or.inr ⟨hcase, by linarith, by linarith, by linarith⟩
      · exact Or.inl ⟨by linarith, by linarith, by linarith, by linarith⟩
    · intro _
      exact ⟨by linarith, by trivial, by trivial⟩
    · rintro (h | h) <;> exact absurd h (by decide)
    · intro _
      exact ⟨by trivial, by trivial⟩
  · subst h
    unfold RegionsPartition
    rw [getRegions_left_eq]
    simp only [Rect.containsPt]
    refine ⟨?_, ?_, ?_, ?_, ?_⟩
    · rintro px py ⟨⟨ha1, _, _, _⟩, ⟨_, hn2, _, _⟩⟩
      linarith
    · intro px py hx0 hxw hy0 hyh
      rcases le_or_lt (width * split) px with hcase | hcase
      · exact Or.inl ⟨hcase, by linarith, by linarith, by linarith⟩
      · exact Or.inr ⟨by linarith, by linarith, by linarith, by linarith⟩
    · intro _
      exact ⟨by linarith, by trivial, by trivial⟩
    · rintro (h | h) <;> exact absurd h (by decide)
    · intro h
      exact absurd h (by decide)
  · subst h
    unfold RegionsPartition
    rw [getRegions_top_eq]
    simp only [Rect.containsPt]
    refine ⟨?_, ?_, ?_, ?_, ?_⟩
    · rintro px py ⟨⟨_, _, ha3, _⟩, ⟨_, _, _, hn4⟩⟩
      linarith
    · intro px py hx0 hxw hy0 hyh
      rcases le_or_lt (height * split) py with hcase | hcase
      · exact Or.inl ⟨by linarith, by linarith, hcase, by linarith⟩
      · exact Or.inr ⟨by linarith, by linarith, by linarith, by linarith⟩
    · rintro (h | h) <;> exact absurd h (by decide)
    · intro _
      exact ⟨by linarith, by trivial, by trivial⟩
    · intro h
      exact absurd h (by decide)
  · subst h
    unfold RegionsPartition
    rw [getRegions_bottom_eq]
    simp only [Rect.containsPt]
    refine ⟨?_, ?_, ?_, ?_, ?_⟩
    · rintro px py ⟨⟨_, _, _, ha4⟩, ⟨_, _, hn3, _⟩⟩
      linarith
    · intro px py hx0 hxw hy0 hyh
      rcases le_or_lt (height * split) py with hcase | hcase
      · exact Or.inr ⟨by linarith, by linarith, hcase, by linarith⟩
      · exact Or.inl ⟨by linarith, by linarith, by linarith, by linarith⟩
    · rintro (h | h) <;> exact absurd h (by decide)
    · intro _
      exact ⟨by linarith, by trivial, by trivial⟩
    · intro h
      exact absurd h (by decide)

/-- Witness for C1 at width 2, height 3, location right, split 1/2. -/
theorem getRegions_partition_witness :
    (0 : ℚ) < 2 ∧ (0 : ℚ) < 3 ∧ (0 : ℚ) < 1/2 ∧ (1 : ℚ)/2 < 1 ∧
      RegionsPartition 2 3 "right" (1/2) :=
  ⟨by norm_num, by norm_num, by norm_num, by norm_num,
    getRegions_partition 2 3 (1/2) "right" (by norm_num) (by norm_num)
      (by norm_num) (by norm_num) (Or.inl rfl)⟩

/-- C9 counterexample: at an unrecognised location the code does not
signal any error; `getRegions` returns normally with the silently
defaulted zero-rectangle record. -/
theorem getRegions_unknown_location_silent_default :
    getRegions 4 2 "diagonal" (1/2) =
      { audience := { x := 0, y := 0, w := 0, h := 0 }
        notes := { x := 0, y := 0, w := 0, h := 0 } } := by
  rfl

/-- C9 (amended): for every location outside right/left/top/bottom,
`getRegions` signals no error: it returns normally, with both regions the
zero rectangle (the silently defaulted initial record). -/
theorem getRegions_unknown_location_defaults (width height split : ℚ)
    (location : String)
    (h1 : location ≠ "right") (h2 : location ≠ "left")
    (h3 : location ≠ "top") (h4 : location ≠ "bottom") :
    getRegions width height location split =
      { audience := { x := 0, y := 0, w := 0, h := 0 }
        notes := { x := 0, y := 0, w := 0, h := 0 } } := by
  unfold getRegions
  split
  · exact absurd rfl h1
  · exact absurd rfl h2
  · exact absurd rfl h3
  · exact absurd rfl h4
  · rfl

/-- Witness for the amended C9 at location "diag". -/
theorem getRegions_unknown_location_defaults_witness :
    getRegions 10 5 "diag" (1/4) =
      { audience := { x := 0, y := 0, w := 0, h := 0 }
        notes := { x := 0, y := 0, w := 0, h := 0 } } :=
  getRegions_unknown_location_defaults 10 5 (1/4) "diag"
    (by decide) (by decide) (by decide) (by decide)

/-- C10: for every width, height, split and any location outside
right/left/top/bottom, `getRegions` is total and returns both regions
equal to the zero rectangle; and because presenter and audience contexts
invoke this very same pure function, two calls with identical arguments
yield identical regions in both windows. -/
theorem getRegions_unknown_location_zero_in_both_windows
    (width height split : ℚ) (location : String)
    (hloc : location ∉ (["right", "left", "top", "bottom"] : List String)) :
    (getRegions width height location split).audience =
        { x := 0, y := 0, w := 0, h := 0 } ∧
    (getRegions width height location split).notes =
        { x := 0, y := 0, w := 0, h := 0 } ∧
    ∀ width2 height2 split2 location2, width2 = width → height2 = height →
      split2 = split → location2 = location →
      getRegions width2 height2 location2 split2 =
        getRegions width height location split := by
  simp only [List.mem_cons, List.not_mem_nil, or_false, not_or] at hloc
  obtain ⟨h1, h2, h3, h4⟩ := hloc
  rw [getRegions_unknown_location_defaults width height split location h1 h2 h3 h4]
  exact ⟨rfl, rfl, fun _ _ _ _ hweq hheq hseq hleq => by
    rw [hweq, hheq, hseq, hleq]
    exact getRegions_unknown_location_defaults width height split location h1 h2 h3 h4⟩

/-- Witness for C10 at location "center". -/
theorem getRegions_unknown_location_zero_in_both_windows_witness :
    (getRegions 8 6 "center" (1/3)).audience =
        { x := 0, y := 0, w := 0, h := 0 } ∧
    (getRegions 8 6 "center" (1/3)).notes =
        { x := 0, y := 0, w := 0, h := 0 } ∧
    ∀ width2 height2 split2 location2, width2 = 8 → height2 = 6 →
      split2 = (1/3 : ℚ) → location2 = "center" →
      getRegions width2 height2 location2 split2 =
        getRegions 8 6 "center" (1/3) :=
  getRegions_unknown_location_zero_in_both_windows 8 6 (1/3) "center" (by decide)

/-- A rendered page raster, as produced by `renderFullPage`
(src/unnamed/part_001): an offscreen canvas whose content is determined,
for a fixed loaded document, by the page number and the render scale that
produced it. -/
structure Canvas where
  pageNum : Int
  scale : ℚ
  deriving Repr, DecidableEq

/-- Embedding of the `AppState` object of src/js/config.js.  The
`audienceWindow` handle is modelled by `audienceWindowOpen`, true exactly
when `AppState.audienceWindow && !AppState.audienceWindow.closed` holds
(the guard used by `sendToAudience`).  `pdfDoc` is the document handle
from the external PDF engine, modelled by its page count.  `pdfData` is
the raw byte buffer.  `pageCache` is the insertion-ordered `Map` from
cache key (page number, scale) to rendered canvas.  `timerStartTime` is
`null` or a `Date.now()` millisecond stamp. -/
structure AppState where
  pdfDoc : Option Int
  pdfData : Option (List Nat)
  pdfUrl : Option String
  totalPages : Int
  currentPage : Int
  location : String
  split : ℚ
  scale : ℚ
  showNextPreview : Bool
  displayMode : String
  audienceWindowOpen : Bool
  isAudienceConnected : Bool
  timerState : String
  timerStartTime : Option Nat
  timerElapsed : Nat
  pageCache : List ((Int × ℚ) × Canvas)
  deriving Repr, DecidableEq

/-- The typed messages of the cross-window protocol (the
`CONFIG.messageTypes` envelope payloads of src/js/config.js as sent by
src/js/sync.js).  `PDF_DATA` carries the byte-buffer copy made by
`sendPdfDataToAudience` via `slice(0)`. -/
inductive Msg where
  | STATE (page totalPages : Int) (location : String) (split : ℚ) (mode : String)
  | NAVIGATE (page : Int)
  | MODE (mode : String)
  | PDF_DATA (data : List Nat) (location : String) (split : ℚ)
  | POINTER (x y : Option ℚ) (active : Bool)
  | HELLO
  | ERROR (payload : String)
  deriving Repr, DecidableEq

/-- Embedding of `sendToAudience` (src/js/sync.js lines 45-62): if the
audience window is absent or closed the send is skipped; otherwise the
message is posted.  The result is the list of messages actually emitted. -/
def sendToAudience (s : AppState) (m : Msg) : List Msg :=
  if s.audienceWindowOpen then [m] else []

/-- Embedding of `sendStateToAudience` (src/js/sync.js lines 67-75). -/
def sendStateToAudience (s : AppState) : List Msg :=
  sendToAudience s
    (Msg.STATE s.currentPage s.totalPages s.location s.split s.displayMode)

/-- Embedding of `sendNavigateToAudience` (src/js/sync.js lines 81-85). -/
def sendNavigateToAudience (s : AppState) (page : Int) : List Msg :=
  sendToAudience s (Msg.NAVIGATE page)

/-- Embedding of `sendPdfDataToAudience` (src/js/sync.js lines 100-114):
nothing is sent when no PDF data is loaded; otherwise the buffer is
cloned with `slice(0)` (a by-value copy, leaving the original in
`AppState.pdfData` untouched) and sent as `PDF_DATA`. -/
def sendPdfDataToAudience (s : AppState) : List Msg :=
  match s.pdfData with
  | none => []
  | some d => sendToAudience s (Msg.PDF_DATA d s.location s.split)

/-- Modelled from the spec: `sendPointerToAudience` is imported by the
presenter main module from the sync module, but its definition is not in
the provided sources.  Per spec section 4.4 the POINTER message is
presenter-to-audience with payload x, y, active, sent through the same
guarded audience-send path as every other message. -/
def sendPointerToAudience (s : AppState) (x y : Option ℚ) (active : Bool) : List Msg :=
  sendToAudience s (Msg.POINTER x y active)

/-- Embedding of the presenter-side `handleAudienceMessage`
(src/js/sync.js lines 121-153), restricted to well-formed envelopes (the
source drops events with no `type` field before the switch).  On HELLO it
marks the audience connected, sends the current STATE and, when PDF data
is loaded, the PDF data; the `onConnect` UI callback is display-only and
elided.  ERROR is logged only; every other type falls through the switch
unhandled.  Returns the updated state and the emitted messages. -/
def handleAudienceMessage (s : AppState) (m : Msg) : AppState × List Msg :=
  match m with
  | Msg.HELLO =>
      let s1 := { s with isAudienceConnected := true }
      let ms := sendStateToAudience s1 ++
        (if s1.pdfData.isSome then sendPdfDataToAudience s1 else [])
      (s1, ms)
  | Msg.ERROR _ => (s, [])
  | _ => (s, [])

/-- C2: on every received HELLO the presenter marks the audience
connected, sends a STATE snapshot, then sends PDF_DATA exactly when
document bytes are loaded, leaving its own byte buffer in place; and the
handling is history-independent — processing a second HELLO after the
first produces the identical state and the identical message sequence. -/
theorem hello_handler_resync (s : AppState) (hopen : s.audienceWindowOpen = true) :
    (handleAudienceMessage s Msg.HELLO).1.isAudienceConnected = true ∧
    (handleAudienceMessage s Msg.HELLO).2 =
      Msg.STATE s.currentPage s.totalPages s.location s.split s.displayMode ::
        (match s.pdfData with
         | some d => [Msg.PDF_DATA d s.location s.split]
         | none => []) ∧
    (handleAudienceMessage s Msg.HELLO).1.pdfData = s.pdfData ∧
    handleAudienceMessage (handleAudienceMessage s Msg.HELLO).1 Msg.HELLO =
      handleAudienceMessage s Msg.HELLO := by
  cases hdata : s.pdfData with
  | none =>
      simp [handleAudienceMessage, sendStateToAudience, sendPdfDataToAudience,
        sendToAudience, hopen, hdata]
  | some d =>
      simp [handleAudienceMessage, sendStateToAudience, sendPdfDataToAudience,
        sendToAudience, hopen, hdata]

/-- A concrete presenter state used by the witnesses: a 12-page document
is loaded, the audience window is open, the timer is stopped. -/
def sampleState : AppState :=
  { pdfDoc := some 12
    pdfData := some [37, 80, 68, 70]
    pdfUrl := none
    totalPages := 12
    currentPage := 3
    location := "right"
    split := 1/2
    scale := 2
    showNextPreview := true
    displayMode := "normal"
    audienceWindowOpen := true
    isAudienceConnected := false
    timerState := "stopped"
    timerStartTime := none
    timerElapsed := 0
    pageCache := [] }

/-- Witness for C2 at the sample state. -/
theorem hello_handler_resync_witness :
    (handleAudienceMessage sampleState Msg.HELLO).1.isAudienceConnected = true ∧
    (handleAudienceMessage sampleState Msg.HELLO).2 =
      Msg.STATE sampleState.currentPage sampleState.totalPages sampleState.location
          sampleState.split sampleState.displayMode ::
        (match sampleState.pdfData with
         | some d => [Msg.PDF_DATA d sampleState.location sampleState.split]
         | none => []) ∧
    (handleAudienceMessage sampleState Msg.HELLO).1.pdfData = sampleState.pdfData ∧
    handleAudienceMessage (handleAudienceMessage sampleState Msg.HELLO).1 Msg.HELLO =
      handleAudienceMessage sampleState Msg.HELLO :=
  hello_handler_resync sampleState rfl

/-- Embedding of `getElapsedTime` (src/unnamed/part_001, timer module
lines 340-351).  The running branch reads `AppState.timerStartTime`
unconditionally; `startTimer` always sets it before entering the running
state, and `getD 0` renders that unconditional read. -/
def getElapsedTime (s : AppState) (now : Nat) : Nat :=
  if s.timerState = "stopped" then 0
  else if s.timerState = "paused" then s.timerElapsed
  else s.timerElapsed + (now - s.timerStartTime.getD 0)

/-- Embedding of `startTimer` (timer module lines 365-383).  The
display-interval bookkeeping (`setInterval` / `clearInterval` and the DOM
update) is display-only and elided. -/
def startTimer (s : AppState) (now : Nat) : AppState :=
  if s.timerState = "running" then s
  else
    let s1 := if s.timerState = "stopped" then { s with timerElapsed := 0 } else s
    { s1 with timerStartTime := some now, timerState := "running" }

/-- Embedding of `pauseTimer` (timer module lines 389-403). -/
def pauseTimer (s : AppState) (now : Nat) : AppState :=
  if s.timerState ≠ "running" then s
  else { s with timerElapsed := getElapsedTime s now, timerState := "paused" }

/-- Embedding of `resetTimer` (timer module lines 409-420). -/
def resetTimer (s : AppState) : AppState :=
  { s with timerState := "stopped", timerStartTime := none, timerElapsed := 0 }

/-- Embedding of `toggleTimer` (timer module lines 426-432). -/
def toggleTimer (s : AppState) (now : Nat) : AppState :=
  if s.timerState = "running" then pauseTimer s now else startTimer s now

/-- C8: the timer state machine — start from stopped zeroes the elapsed
accumulator and enters running; start from paused enters running keeping
the accumulated elapsed; pause from running captures
accumulated + (now - startTimestamp) and enters paused; reset yields
elapsed 0 and state stopped from any state; and while running the elapsed
time is computed live as capturedElapsed + (now - startTimestamp). -/
theorem timer_state_machine (s : AppState) (now : Nat) :
    (s.timerState = "stopped" →
      startTimer s now =
        { s with timerElapsed := 0, timerStartTime := some now,
                 timerState := "running" }) ∧
    (s.timerState = "paused" →
      startTimer s now =
        { s with timerStartTime := some now, timerState := "running" }) ∧
    (s.timerState = "running" →
      pauseTimer s now =
        { s with timerElapsed := s.timerElapsed + (now - s.timerStartTime.getD 0),
                 timerState := "paused" }) ∧
    ((resetTimer s).timerElapsed = 0 ∧ (resetTimer s).timerState = "stopped" ∧
      getElapsedTime (resetTimer s) now = 0) ∧
    (s.timerState = "running" →
      getElapsedTime s now = s.timerElapsed + (now - s.timerStartTime.getD 0)) := by
  refine ⟨?_, ?_, ?_, ⟨rfl, rfl, rfl⟩, ?_⟩
  · intro h
    simp [startTimer, h]
  · intro h
    simp [startTimer, h]
  · intro h
    simp [pauseTimer, getElapsedTime, h]
  · intro h
    simp [getElapsedTime, h]

/-- Witness for C8: the sample state is stopped; starting at 100, pausing
at 2100 and resetting behave as the state machine requires. -/
theorem timer_state_machine_witness :
    (sampleState.timerState = "stopped" →
      startTimer sampleState 100 =
        { sampleState with timerElapsed := 0, timerStartTime := some 100,
                           timerState := "running" }) ∧
    (startTimer sampleState 100).timerState = "running" ∧
    pauseTimer (startTimer sampleState 100) 2100 =
      { startTimer sampleState 100 with
          timerElapsed := (startTimer sampleState 100).timerElapsed +
            (2100 - (startTimer sampleState 100).timerStartTime.getD 0),
          timerState := "paused" } ∧
    (pauseTimer (startTimer sampleState 100) 2100).timerElapsed = 2000 :=
  ⟨(timer_state_machine sampleState 100).1, by decide,
    (timer_state_machine (startTimer sampleState 100) 2100).2.2.1 (by decide),
    by decide⟩

/-- Embedding of `renderFullPage(pageNum, scale)` (src/unnamed/part_001
lines 131-163).  `none` models the thrown `No PDF loaded` error.  On a
cache hit the cached canvas is returned and the cache is untouched.  On a
miss the page is rasterised (external engine call; its result is the
canvas for this page and scale) and cached: when the cache already holds
more than 5 entries, `pageCache.keys().next().value` — the oldest
inserted key, the head of the insertion-ordered list, keys being unique —
is deleted before the new entry is appended by `set`. -/
def renderFullPage (s : AppState) (pageNum : Int) (scale : ℚ) :
    Option (AppState × Canvas) :=
  if s.pdfDoc = none then none
  else
    let cacheKey := (pageNum, scale)
    match s.pageCache.lookup cacheKey with
    | some canvas => some (s, canvas)
    | none =>
        let canvas : Canvas := { pageNum := pageNum, scale := scale }
        let cache1 := if s.pageCache.length > 5 then s.pageCache.tail else s.pageCache
        some ({ s with pageCache := cache1 ++ [(cacheKey, canvas)] }, canvas)

/-- A sequence of insertions into the page cache via `renderFullPage`:
each request is a (page number, scale) pair; requests that throw (no
document loaded) leave the state unchanged. -/
def renderSeq (s : AppState) : List (Int × ℚ) → AppState
  | [] => s
  | (p, sc) :: rest =>
      match renderFullPage s p sc with
      | none => renderSeq s rest
      | some (s1, _) => renderSeq s1 rest

/-- Six distinct page requests at scale 1. -/
def overfillRequests : List (Int × ℚ) :=
  [(1, 1), (2, 1), (3, 1), (4, 1), (5, 1), (6, 1)]

/-- C3 counterexample: from an empty cache, six insertions via
`renderFullPage` leave six entries in the cache — the eviction check
`pageCache.size > 5` runs before the insertion, so the cache settles at
six entries, exceeding the claimed bound of five. -/
theorem cache_reaches_six_entries :
    (renderSeq sampleState overfillRequests).pageCache.length = 6 ∧
    ¬ (renderSeq sampleState overfillRequests).pageCache.length ≤ 5 := by
  decide

/-- Reduction of `renderFullPage` when no document is loaded. -/
theorem renderFullPage_nodoc (s : AppState) (p : Int) (sc : ℚ)
    (hdoc : s.pdfDoc = none) : renderFullPage s p sc = none := by
  unfold renderFullPage
  rw [if_pos hdoc]

/-- Reduction of `renderFullPage` on a cache hit. -/
theorem renderFullPage_hit (s : AppState) (p : Int) (sc : ℚ) (c : Canvas)
    (hdoc : s.pdfDoc ≠ none) (hlook : s.pageCache.lookup (p, sc) = some c) :
    renderFullPage s p sc = some (s, c) := by
  unfold renderFullPage
  rw [if_neg hdoc]
  dsimp only
  rw [hlook]

/-- Reduction of `renderFullPage` on a cache miss. -/
theorem renderFullPage_miss (s : AppState) (p : Int) (sc : ℚ)
    (hdoc : s.pdfDoc ≠ none) (hlook : s.pageCache.lookup (p, sc) = none) :
    renderFullPage s p sc =
      some ({ s with pageCache :=
                (if s.pageCache.length > 5 then s.pageCache.tail else s.pageCache) ++
                  [((p, sc), { pageNum := p, scale := sc })] },
            { pageNum := p, scale := sc }) := by
  unfold renderFullPage
  rw [if_neg hdoc]
  dsimp only
  rw [hlook]

/-- Step preservation for the real cache bound: one `renderFullPage` call
keeps the cache at six entries or fewer. -/
theorem renderFullPage_cache_le_six (s : AppState) (p : Int) (sc : ℚ)
    (h : s.pageCache.length ≤ 6) :
    ∀ s1 c, renderFullPage s p sc = some (s1, c) → s1.pageCache.length ≤ 6 := by
  intro s1 c hcall
  by_cases hdoc : s.pdfDoc = none
  · rw [renderFullPage_nodoc s p sc hdoc] at hcall
    exact absurd hcall (by simp)
  · cases hlook : s.pageCache.lookup (p, sc) with
    | some canvas =>
        rw [renderFullPage_hit s p sc canvas hdoc hlook] at hcall
        simp only [Option.some.injEq, Prod.mk.injEq] at hcall
        rw [← hcall.1]
        exact h
    | none =>
        rw [renderFullPage_miss s p sc hdoc hlook] at hcall
        simp only [Option.some.injEq, Prod.mk.injEq] at hcall
        rw [← hcall.1]
        by_cases hlen : s.pageCache.length > 5
        · rw [if_pos hlen]
          simp only [List.length_append, List.length_tail, List.length_cons, List.length_nil]
          omega
        · rw [if_neg hlen]
          simp only [List.length_append, List.length_cons, List.length_nil]
          omega

/-- C3 (amended): after any sequence of insertions via `renderFullPage`,
starting from any state whose cache holds at most six entries (in
particular the empty cache), the cache holds at most six entries — the
code evicts only when the size before insertion already exceeds five, so
the settled bound is six, not five. -/
theorem cache_bounded_by_six (reqs : List (Int × ℚ)) (s : AppState)
    (h : s.pageCache.length ≤ 6) :
    (renderSeq s reqs).pageCache.length ≤ 6 := by
  induction reqs generalizing s with
  | nil => exact h
  | cons r rest ih =>
      obtain ⟨p, sc⟩ := r
      show (match renderFullPage s p sc with
            | none => renderSeq s rest
            | some (s1, _) => renderSeq s1 rest).pageCache.length ≤ 6
      cases hcall : renderFullPage s p sc with
      | none => exact ih s h
      | some r1 =>
          obtain ⟨s1, c⟩ := r1
          exact ih s1 (renderFullPage_cache_le_six s p sc h s1 c hcall)

/-- Witness for the amended C3: ten requests against the sample state. -/
theorem cache_bounded_by_six_witness :
    (renderSeq sampleState
      [(1, 1), (2, 1), (3, 1), (4, 1), (5, 1), (6, 1), (7, 1), (8, 1), (2, 1),
        (9, 1)]).pageCache.length ≤ 6 :=
  cache_bounded_by_six _ sampleState (by decide)

/-- C4: whenever an insertion through `renderFullPage` evicts (the key is
absent and the cache size before insertion exceeds five), the evicted
entry is exactly the head of the insertion-ordered cache — the oldest
inserted entry — and the survivors keep their insertion order with the new
entry appended; a cache hit returns the cached canvas and leaves the
cache, hence the eviction order, untouched. -/
theorem cache_eviction_fifo (s : AppState) (pageNum : Int) (scale : ℚ) :
    (∀ e rest, s.pdfDoc ≠ none →
      s.pageCache.lookup (pageNum, scale) = none →
      s.pageCache = e :: rest → 5 ≤ rest.length →
      renderFullPage s pageNum scale =
        some ({ s with pageCache :=
                  rest ++ [((pageNum, scale), { pageNum := pageNum, scale := scale })] },
              { pageNum := pageNum, scale := scale })) ∧
    (∀ c, s.pdfDoc ≠ none → s.pageCache.lookup (pageNum, scale) = some c →
      renderFullPage s pageNum scale = some (s, c)) := by
  constructor
  · intro e rest hdoc hlook hcache hlen
    rw [renderFullPage_miss s pageNum scale hdoc hlook]
    rw [if_pos (by rw [hcache]; simp only [List.length_cons]; omega)]
    rw [hcache]
    rfl
  · intro c hdoc hlook
    exact renderFullPage_hit s pageNum scale c hdoc hlook

/-- A sample state whose cache is full with six entries, pages 1-6 at
scale 1, inserted in page order. -/
def fullCacheState : AppState :=
  { sampleState with
      pageCache :=
        [((1, 1), { pageNum := 1, scale := 1 }),
         ((2, 1), { pageNum := 2, scale := 1 }),
         ((3, 1), { pageNum := 3, scale := 1 }),
         ((4, 1), { pageNum := 4, scale := 1 }),
         ((5, 1), { pageNum := 5, scale := 1 }),
         ((6, 1), { pageNum := 6, scale := 1 })] }

/-- Witness for C4: inserting page 7 into the full cache evicts the
oldest entry (page 1), and a hit on page 3 leaves the state unchanged. -/
theorem cache_eviction_fifo_witness :
    renderFullPage fullCacheState 7 1 =
      some ({ fullCacheState with pageCache :=
                [((2, 1), { pageNum := 2, scale := 1 }),
                 ((3, 1), { pageNum := 3, scale := 1 }),
                 ((4, 1), { pageNum := 4, scale := 1 }),
                 ((5, 1), { pageNum := 5, scale := 1 }),
                 ((6, 1), { pageNum := 6, scale := 1 }),
                 ((7, 1), { pageNum := 7, scale := 1 })] },
            { pageNum := 7, scale := 1 }) ∧
    renderFullPage fullCacheState 3 1 =
      some (fullCacheState, { pageNum := 3, scale := 1 }) :=
  ⟨(cache_eviction_fifo fullCacheState 7 1).1
      ((1, 1), { pageNum := 1, scale := 1 }) _
      (by decide) (by decide) rfl (by decide),
    (cache_eviction_fifo fullCacheState 3 1).2
      { pageNum := 3, scale := 1 } (by decide) (by decide)⟩

/-- Embedding of `loadPdfFromBuffer(arrayBuffer)` (src/unnamed/part_001
lines 59-83).  `pdfjsReady` models the `pdfjsLib` initialisation check,
which throws before any mutation.  The source stores a copy of the buffer
into `AppState.pdfData` BEFORE awaiting the engine; `engine` is the
outcome of `getDocument(...).promise` (`none` — the promise rejected, the
exception propagates to the caller and no further assignment runs;
`some n` — a document handle with n pages). -/
def loadPdfFromBuffer (pdfjsReady : Bool) (s : AppState) (buf : List Nat)
    (engine : Option Int) : AppState :=
  if ¬ pdfjsReady then s
  else
    let s1 := { s with pdfData := some buf }
    match engine with
    | none => s1
    | some n =>
        { s1 with pdfDoc := some n, totalPages := n, currentPage := 1,
                  pageCache := [] }

/-- Embedding of `loadPdfFromUrl(url)` (src/unnamed/part_001 lines
90-123).  `fetched` is the outcome of `fetch(url)` plus `arrayBuffer()`
(`none` — the fetch failed or returned a non-ok status, throwing before
any state mutation; `some buf` — the fetched bytes).  On a successful
fetch the source stores `pdfData` and `pdfUrl` BEFORE awaiting the
engine. -/
def loadPdfFromUrl (pdfjsReady : Bool) (s : AppState) (url : String)
    (fetched : Option (List Nat)) (engine : Option Int) : AppState :=
  if ¬ pdfjsReady then s
  else
    match fetched with
    | none => s
    | some buf =>
        let s1 := { s with pdfData := some buf, pdfUrl := some url }
        match engine with
        | none => s1
        | some n =>
            { s1 with pdfDoc := some n, totalPages := n, currentPage := 1,
                      pageCache := [] }

/-- The filename guard of `handleFileSelect`:
`file.name.toLowerCase().endsWith(".pdf")`, expressed over the character
list of the name. -/
def fileNameIsPdf (fileName : String) : Bool :=
  List.isSuffixOf ".pdf".data (fileName.data.map Char.toLower)

/-- Embedding of the guard of `handleFileSelect(file)` (src/unnamed/
part_000 lines 239-274): a file whose lowercased name does not end in
.pdf is rejected with a toast before any load starts; otherwise the
buffer load runs (the UI settings applied after a successful load come
from DOM inputs and are elided — the claim about this function concerns
only its failure paths). -/
def handleFileSelect (pdfjsReady : Bool) (s : AppState) (fileName : String)
    (buf : List Nat) (engine : Option Int) : AppState :=
  if ¬ fileNameIsPdf fileName then s
  else loadPdfFromBuffer pdfjsReady s buf engine

/-- A state with a previously loaded document, used to exhibit what a
failed load leaves behind. -/
def loadedState : AppState :=
  { sampleState with pdfData := some [1, 2, 3], pdfUrl := some "old.pdf" }

/-- C6 counterexample: a malformed-PDF load attempt (the engine rejects)
leaves `pdfData` overwritten with the new buffer — the prior session
state is NOT left untouched, because the source assigns
`AppState.pdfData` before awaiting the parse. -/
theorem failed_load_overwrites_pdfData :
    (loadPdfFromBuffer true loadedState [9, 9] none).pdfData = some [9, 9] ∧
    loadedState.pdfData = some [1, 2, 3] ∧
    (loadPdfFromBuffer true loadedState [9, 9] none).pdfData ≠
      loadedState.pdfData := by
  refine ⟨rfl, rfl, ?_⟩
  decide

/-- C6 (amended): a failed fetch and a non-PDF file name abort before any
mutation, leaving every field of the session state unchanged; a
malformed-PDF parse failure leaves pdfDoc, totalPages, currentPage,
pageCache (and, for buffer loads, pdfUrl) unchanged, but pdfData has
already been overwritten with the new buffer — and pdfUrl with the new
URL for URL loads — before the failure. -/
theorem failed_load_state (s : AppState) :
    (∀ buf, loadPdfFromBuffer true s buf none = { s with pdfData := some buf }) ∧
    (∀ url engine, loadPdfFromUrl true s url none engine = s) ∧
    (∀ url buf, loadPdfFromUrl true s url (some buf) none =
      { s with pdfData := some buf, pdfUrl := some url }) ∧
    (∀ fileName buf engine, ¬ fileNameIsPdf fileName →
      handleFileSelect true s fileName buf engine = s) := by
  refine ⟨fun buf => rfl, fun url engine => rfl, fun url buf => rfl,
    fun fileName buf engine hname => ?_⟩
  unfold handleFileSelect
  rw [if_pos hname]

/-- Witness for the amended C6 at the loaded sample state. -/
theorem failed_load_state_witness :
    loadPdfFromBuffer true loadedState [9, 9] none =
      { loadedState with pdfData := some [9, 9] } ∧
    loadPdfFromUrl true loadedState "new.pdf" none none = loadedState ∧
    loadPdfFromUrl true loadedState "new.pdf" (some [9, 9]) none =
      { loadedState with pdfData := some [9, 9], pdfUrl := some "new.pdf" } ∧
    handleFileSelect true loadedState "slides.txt" [9, 9] none = loadedState :=
  ⟨(failed_load_state loadedState).1 [9, 9],
    (failed_load_state loadedState).2.1 "new.pdf" none,
    (failed_load_state loadedState).2.2.1 "new.pdf" [9, 9],
    (failed_load_state loadedState).2.2.2 "slides.txt" [9, 9] none (by decide)⟩

/-- `renderFullPage` mutates only the page cache: every other field of
the state is returned unchanged. -/
theorem renderFullPage_only_cache (s : AppState) (p : Int) (sc : ℚ) :
    ∀ s1 c, renderFullPage s p sc = some (s1, c) →
      s1 = { s with pageCache := s1.pageCache } := by
  intro s1 c hcall
  by_cases hdoc : s.pdfDoc = none
  · rw [renderFullPage_nodoc s p sc hdoc] at hcall
    exact absurd hcall (by simp)
  · cases hlook : s.pageCache.lookup (p, sc) with
    | some canvas =>
        rw [renderFullPage_hit s p sc canvas hdoc hlook] at hcall
        simp only [Option.some.injEq, Prod.mk.injEq] at hcall
        rw [← hcall.1]
    | none =>
        rw [renderFullPage_miss s p sc hdoc hlook] at hcall
        simp only [Option.some.injEq, Prod.mk.injEq] at hcall
        rw [← hcall.1]

/-- Embedding of the state effect of `renderAudienceSlide(canvas,
pageNum)` (src/unnamed/part_001 lines 195-225): silently skips when no
document is loaded or the page is out of range; otherwise obtains the
full raster through the cache-aware `renderFullPage` at the configured
scale.  The region extraction and canvas sizing are pure DOM drawing and
touch no session state. -/
def renderAudienceSlideState (s : AppState) (pageNum : Int) : AppState :=
  if s.pdfDoc = none ∨ pageNum < 1 ∨ pageNum > s.totalPages then s
  else
    match renderFullPage s pageNum s.scale with
    | some (s1, _) => s1
    | none => s

/-- Embedding of the state effect of `renderNotesArea(canvas, pageNum)`
(src/unnamed/part_001 lines 232-271): as `renderAudienceSlide` but at
1.5 times the configured scale. -/
def renderNotesAreaState (s : AppState) (pageNum : Int) : AppState :=
  if s.pdfDoc = none ∨ pageNum < 1 ∨ pageNum > s.totalPages then s
  else
    match renderFullPage s pageNum (s.scale * (3 / 2)) with
    | some (s1, _) => s1
    | none => s

/-- Embedding of the state effect of `renderCurrentPage` (src/unnamed/
part_000 lines 159-182): renders the current slide preview, the notes
area, and — when the next preview is enabled and a next page exists — the
next-page preview; DOM display updates are elided. -/
def renderCurrentPage (s : AppState) : AppState :=
  let page := s.currentPage
  let s1 := renderAudienceSlideState s page
  let s2 := renderNotesAreaState s1 page
  if s2.showNextPreview ∧ page < s2.totalPages then
    renderAudienceSlideState s2 (page + 1)
  else s2

/-- Chaining of the only-the-cache-differs relation. -/
theorem onlyCache_trans (a b c : AppState)
    (h1 : b = { a with pageCache := b.pageCache })
    (h2 : c = { b with pageCache := c.pageCache }) :
    c = { a with pageCache := c.pageCache } := by
  rw [h1] at h2
  exact h2

/-- `renderAudienceSlideState` mutates only the page cache. -/
theorem renderAudienceSlideState_only_cache (s : AppState) (p : Int) :
    renderAudienceSlideState s p =
      { s with pageCache := (renderAudienceSlideState s p).pageCache } := by
  unfold renderAudienceSlideState
  split
  · rfl
  · cases hcall : renderFullPage s p s.scale with
    | none => rfl
    | some r =>
        obtain ⟨s1, c⟩ := r
        exact renderFullPage_only_cache s p s.scale s1 c hcall

/-- `renderNotesAreaState` mutates only the page cache. -/
theorem renderNotesAreaState_only_cache (s : AppState) (p : Int) :
    renderNotesAreaState s p =
      { s with pageCache := (renderNotesAreaState s p).pageCache } := by
  unfold renderNotesAreaState
  split
  · rfl
  · cases hcall : renderFullPage s p (s.scale * (3 / 2)) with
    | none => rfl
    | some r =>
        obtain ⟨s1, c⟩ := r
        exact renderFullPage_only_cache s p (s.scale * (3 / 2)) s1 c hcall

/-- `renderCurrentPage` mutates only the page cache. -/
theorem renderCurrentPage_only_cache (s : AppState) :
    renderCurrentPage s = { s with pageCache := (renderCurrentPage s).pageCache } := by
  unfold renderCurrentPage
  have h1 := renderAudienceSlideState_only_cache s s.currentPage
  have h2 := renderNotesAreaState_only_cache (renderAudienceSlideState s s.currentPage)
    s.currentPage
  have h12 := onlyCache_trans _ _ _ h1 h2
  dsimp only
  split
  · exact onlyCache_trans _ _ _ h12
      (renderAudienceSlideState_only_cache
        (renderNotesAreaState (renderAudienceSlideState s s.currentPage) s.currentPage)
        (s.currentPage + 1))
  · exact h12

/-- The DOM-level presenter overlay state: whether the presenter-side
laser pointer element carries the hidden class. -/
structure PresenterUi where
  pointerHidden : Bool
  deriving Repr, DecidableEq

/-- Embedding of `navigateTo(page)` (src/unnamed/part_000 lines 188-205):
out-of-range pages return before any mutation or send; in-range pages set
the current page, clear the laser pointer remotely (POINTER active:false)
and locally (hide the presenter pointer element), re-render the previews,
then broadcast NAVIGATE. -/
def navigateTo (s : AppState) (ui : PresenterUi) (page : Int) :
    AppState × PresenterUi × List Msg :=
  if page < 1 ∨ page > s.totalPages then (s, ui, [])
  else
    let s1 := { s with currentPage := page }
    let ptrMs := sendPointerToAudience s1 none none false
    let ui1 : PresenterUi := { pointerHidden := true }
    let s2 := renderCurrentPage s1
    (s2, ui1, ptrMs ++ sendNavigateToAudience s2 page)

/-- C5: an out-of-range `navigateTo` changes nothing — the state (every
field) and the presenter overlay are returned untouched and no message is
sent; an in-range `navigateTo` sets the current page, leaves every other
session field except the page cache unchanged, hides the local pointer,
and emits exactly the remote pointer-clear followed by NAVIGATE. -/
theorem navigateTo_bounds (s : AppState) (ui : PresenterUi) (page : Int) :
    ((page < 1 ∨ page > s.totalPages) → navigateTo s ui page = (s, ui, [])) ∧
    (1 ≤ page → page ≤ s.totalPages → s.audienceWindowOpen = true →
      (navigateTo s ui page).1.currentPage = page ∧
      (navigateTo s ui page).1 =
        { s with currentPage := page,
                 pageCache := (navigateTo s ui page).1.pageCache } ∧
      (navigateTo s ui page).2.1 = { pointerHidden := true } ∧
      (navigateTo s ui page).2.2 =
        [Msg.POINTER none none false, Msg.NAVIGATE page]) := by
  constructor
  · intro h
    unfold navigateTo
    rw [if_pos h]
  · intro h1 h2 hopen
    have hcond : ¬ (page < 1 ∨ page > s.totalPages) := by omega
    unfold navigateTo
    rw [if_neg hcond]
    dsimp only
    set t : AppState := { s with currentPage := page } with ht
    have hrc := renderCurrentPage_only_cache t
    have htopen : t.audienceWindowOpen = true := hopen
    have hopen2 : (renderCurrentPage t).audienceWindowOpen = true := by
      rw [hrc]
      exact htopen
    refine ⟨?_, ?_, rfl, ?_⟩
    · rw [hrc]
    · rw [hrc]
    · unfold sendPointerToAudience sendNavigateToAudience sendToAudience
      rw [if_pos hopen2, if_pos htopen]
      rfl

/-- Witness for C5 at the sample state: page 13 is out of range for the
12-page document and is dropped; page 5 is in range and navigates. -/
theorem navigateTo_bounds_witness :
    navigateTo sampleState { pointerHidden := false } 13 =
      (sampleState, { pointerHidden := false }, []) ∧
    ((navigateTo sampleState { pointerHidden := false } 5).1.currentPage = 5 ∧
      (navigateTo sampleState { pointerHidden := false } 5).2.1 =
        { pointerHidden := true } ∧
      (navigateTo sampleState { pointerHidden := false } 5).2.2 =
        [Msg.POINTER none none false, Msg.NAVIGATE 5]) :=
  ⟨(navigateTo_bounds sampleState { pointerHidden := false } 13).1 (by decide),
    ⟨((navigateTo_bounds sampleState { pointerHidden := false } 5).2
        (by decide) (by decide) rfl).1,
      ((navigateTo_bounds sampleState { pointerHidden := false } 5).2
        (by decide) (by decide) rfl).2.2.1,
      ((navigateTo_bounds sampleState { pointerHidden := false } 5).2
        (by decide) (by decide) rfl).2.2.2⟩⟩

/-- The pointer throttle interval (src/unnamed/part_000 line 467):
`POINTER_THROTTLE_MS = 33`, about 30 updates per second. -/
def POINTER_THROTTLE_MS : Nat := 33

/-- Embedding of `sendPointerThrottled(x, y, active)` (src/unnamed/
part_000 lines 520-526): sends only when at least 33 ms have elapsed
since the last throttled send, and records the send time exactly when it
sends.  Takes and returns `lastPointerSendTime`. -/
def sendPointerThrottled (s : AppState) (last now : Nat) (x y : Option ℚ)
    (active : Bool) : Nat × List Msg :=
  if POINTER_THROTTLE_MS ≤ now - last then (now, sendPointerToAudience s x y active)
  else (last, [])

/-- Embedding of the mousedown pointer handler (src/unnamed/part_000
lines 529-538): non-left buttons are ignored; otherwise the pointer
becomes active and, when the cursor is over the preview canvas, the
position is sent immediately, bypassing the throttle and leaving its
timestamp untouched.  `coords` is `getPointerCoords` (`none` when the
cursor is outside the canvas).  Returns `isPointerActive` and the emitted
messages. -/
def onPointerMouseDown (s : AppState) (button : Int) (ptrActive : Bool)
    (coords : Option (ℚ × ℚ)) : Bool × List Msg :=
  if button ≠ 0 then (ptrActive, [])
  else
    (true,
      match coords with
      | some (cx, cy) => sendPointerToAudience s (some cx) (some cy) true
      | none => [])

/-- Embedding of the mousemove pointer handler (src/unnamed/part_000
lines 541-553): inert unless the pointer is active; in bounds the
position goes through the throttle; out of bounds an immediate
active:false is sent without touching the throttle timestamp.  Takes and
returns `lastPointerSendTime`. -/
def onPointerMouseMove (s : AppState) (ptrActive : Bool) (last now : Nat)
    (coords : Option (ℚ × ℚ)) : Nat × List Msg :=
  if ¬ ptrActive then (last, [])
  else
    match coords with
    | some (cx, cy) => sendPointerThrottled s last now (some cx) (some cy) true
    | none => (last, sendPointerToAudience s none none false)

/-- Embedding of the mouseup pointer handler (src/unnamed/part_000 lines
556-561): non-left buttons are ignored; a left-button release deactivates
the pointer and sends an immediate active:false, bypassing the
throttle. -/
def onPointerMouseUp (s : AppState) (button : Int) (ptrActive : Bool) :
    Bool × List Msg :=
  if button ≠ 0 then (ptrActive, [])
  else (false, sendPointerToAudience s none none false)

/-- Embedding of the mouseleave pointer handler (src/unnamed/part_000
lines 564-570): only an active pointer leads to a deactivation and an
immediate active:false send. -/
def onPointerMouseLeave (s : AppState) (ptrActive : Bool) : Bool × List Msg :=
  if ptrActive then (false, sendPointerToAudience s none none false)
  else (ptrActive, [])

/-- A burst of in-bounds mousemove events with the pointer active:
threads `lastPointerSendTime` through the handler at each event time and
counts the POINTER messages emitted. -/
def pointerMoveRun (s : AppState) (cx cy : ℚ) (last : Nat) :
    List Nat → Nat × Nat
  | [] => (last, 0)
  | t :: ts =>
      let step := onPointerMouseMove s true last t (some (cx, cy))
      let rest := pointerMoveRun s cx cy step.1 ts
      (rest.1, step.2.length + rest.2)

/-- One in-bounds active mousemove step, reduced: it sends exactly when
33 ms have elapsed since the last throttled send. -/
theorem onPointerMouseMove_throttle (s : AppState)
    (hopen : s.audienceWindowOpen = true) (cx cy : ℚ) (last t : Nat) :
    onPointerMouseMove s true last t (some (cx, cy)) =
      if last + 33 ≤ t then (t, [Msg.POINTER (some cx) (some cy) true])
      else (last, []) := by
  unfold onPointerMouseMove sendPointerThrottled sendPointerToAudience
    sendToAudience POINTER_THROTTLE_MS
  by_cases hc : last + 33 ≤ t
  · rw [if_pos hc]
    have hsub : 33 ≤ t - last := by omega
    simp [hsub, hopen]
  · rw [if_neg hc]
    have hsub : ¬ 33 ≤ t - last := by omega
    simp [hsub]

/-- The throttle gap invariant: over any burst of events whose times lie
in a window [T, T+100], either nothing is sent, or the sends are spaced
at least 33 ms apart starting no earlier than both T and 33 ms past the
incoming timestamp. -/
theorem pointerMoveRun_gap (s : AppState) (hopen : s.audienceWindowOpen = true)
    (cx cy : ℚ) (T : Nat) :
    ∀ (ts : List Nat) (last : Nat), (∀ t ∈ ts, T ≤ t ∧ t ≤ T + 100) →
      (pointerMoveRun s cx cy last ts).2 = 0 ∨
      max (last + 33) T + 33 * ((pointerMoveRun s cx cy last ts).2 - 1) ≤ T + 100 := by
  intro ts
  induction ts with
  | nil =>
      intro last hmem
      left
      rfl
  | cons t ts ih =>
      intro last hmem
      obtain ⟨hT, hB⟩ := hmem t (List.mem_cons_self t ts)
      have hrest : ∀ u ∈ ts, T ≤ u ∧ u ≤ T + 100 :=
        fun u hu => hmem u (List.mem_cons_of_mem t hu)
      simp only [pointerMoveRun]
      rw [onPointerMouseMove_throttle s hopen cx cy last t]
      by_cases hc : last + 33 ≤ t
      · rw [if_pos hc]
        dsimp only
        simp only [List.length_singleton]
        right
        have hM : max (last + 33) T ≤ t := max_le hc hT
        have hM2 : max (t + 33) T = t + 33 := max_eq_left (by omega)
        rcases ih t hrest with h0 | hbound
        · rw [h0]
          omega
        · rw [hM2] at hbound
          omega
      · rw [if_neg hc]
        dsimp only
        simpa using ih last hrest

/-- C7 counterexample: one hundred in-bounds mousemove events inside a
single 100 ms window (times 1000, 1033, 1066, 1099 and 96 repeats of
1099) produce exactly FOUR POINTER messages through the throttle — not
fewer than four as claimed. -/
def pointerBurstTimes : List Nat :=
  [1000, 1033, 1066, 1099] ++ List.replicate 96 1099

/-- C7 counterexample theorem: the burst has one hundred events, all
within 99 ms of each other, and the throttled handler emits four POINTER
messages, refuting the fewer-than-four bound. -/
theorem pointer_burst_emits_four :
    pointerBurstTimes.length = 100 ∧
    (∀ t ∈ pointerBurstTimes, 1000 ≤ t ∧ t ≤ 1099) ∧
    (pointerMoveRun sampleState 0 0 0 pointerBurstTimes).2 = 4 ∧
    ¬ (pointerMoveRun sampleState 0 0 0 pointerBurstTimes).2 < 4 := by
  decide

/-- C7 (amended): pointer-move events are forwarded at a bounded maximum
rate — a throttled send is emitted exactly when at least 33 ms have
elapsed since the last throttled send, so any burst of move events inside
a 100 ms window emits AT MOST FOUR POINTER messages (four are attainable)
— while a left-button pointer-up, a pointer-leave while the pointer is
active, and any accepted page navigation send an immediate active:false
POINTER message that bypasses the rate limiter. -/
theorem pointer_rate_limit (s : AppState) (hopen : s.audienceWindowOpen = true) :
    (∀ last now x y active,
      sendPointerThrottled s last now x y active =
        if last + 33 ≤ now then (now, [Msg.POINTER x y active]) else (last, [])) ∧
    (∀ (cx cy : ℚ) (T last : Nat) (ts : List Nat),
      (∀ t ∈ ts, T ≤ t ∧ t ≤ T + 100) →
      (pointerMoveRun s cx cy last ts).2 ≤ 4) ∧
    (∀ ptrActive, onPointerMouseUp s 0 ptrActive =
      (false, [Msg.POINTER none none false])) ∧
    onPointerMouseLeave s true = (false, [Msg.POINTER none none false]) ∧
    (∀ ui page, 1 ≤ page → page ≤ s.totalPages →
      Msg.POINTER none none false ∈ (navigateTo s ui page).2.2) := by
  refine ⟨?_, ?_, ?_, ?_, ?_⟩
  · intro last now x y active
    unfold sendPointerThrottled sendPointerToAudience sendToAudience
      POINTER_THROTTLE_MS
    by_cases hc : last + 33 ≤ now
    · rw [if_pos hc]
      have hsub : 33 ≤ now - last := by omega
      simp [hsub, hopen]
    · rw [if_neg hc]
      have hsub : ¬ 33 ≤ now - last := by omega
      simp [hsub]
  · intro cx cy T last ts hmem
    rcases pointerMoveRun_gap s hopen cx cy T ts last hmem with h0 | hbound
    · omega
    · have hTM : T ≤ max (last + 33) T := le_max_right _ _
      omega
  · intro ptrActive
    unfold onPointerMouseUp sendPointerToAudience sendToAudience
    simp [hopen]
  · unfold onPointerMouseLeave sendPointerToAudience sendToAudience
    simp [hopen]
  · intro ui page h1 h2
    unfold navigateTo
    rw [if_neg (show ¬ (page < 1 ∨ page > s.totalPages) by omega)]
    dsimp only
    unfold sendPointerToAudience sendToAudience
    rw [if_pos
      (show ({ s with currentPage := page } : AppState).audienceWindowOpen = true
        from hopen)]
    exact List.mem_append_left _ (List.mem_singleton_self _)

/-- Witness for the amended C7 at the sample state: a send 32 ms after
the last one is suppressed, a send 33 ms after goes through, the
hundred-event burst stays at four messages or fewer, and the unthrottled
active:false paths all emit. -/
theorem pointer_rate_limit_witness :
    sendPointerThrottled sampleState 1000 1032 (some 0) (some 0) true =
      (1000, []) ∧
    sendPointerThrottled sampleState 1000 1033 (some 0) (some 0) true =
      (1033, [Msg.POINTER (some 0) (some 0) true]) ∧
    (pointerMoveRun sampleState 0 0 0 pointerBurstTimes).2 ≤ 4 ∧
    onPointerMouseUp sampleState 0 true = (false, [Msg.POINTER none none false]) ∧
    onPointerMouseLeave sampleState true =
      (false, [Msg.POINTER none none false]) ∧
    Msg.POINTER none none false ∈
      (navigateTo sampleState { pointerHidden := false } 5).2.2 :=
  ⟨((pointer_rate_limit sampleState rfl).1 1000 1032 (some 0) (some 0)
      true).trans (by decide),
    ((pointer_rate_limit sampleState rfl).1 1000 1033 (some 0) (some 0)
      true).trans (by decide),
    (pointer_rate_limit sampleState rfl).2.1 0 0 1000 0 pointerBurstTimes
      (by decide),
    (pointer_rate_limit sampleState rfl).2.2.1 true,
    (pointer_rate_limit sampleState rfl).2.2.2.1,
    (pointer_rate_limit sampleState rfl).2.2.2.2 { pointerHidden := false } 5
      (by decide) (by decide)⟩
